import Mathlib

/-!
Verification of the velist.dev documentation repository: a shallow embedding of
the deployment shell script (scripts/deploy.sh), the VitePress site
configuration (docs/.vitepress/config.ts and the earlier configuration kept in
the snapshot), the repository file manifest, and the package scripts, together
with theorems settling the specified properties.
-/

/-! ## The deploy script (scripts/deploy.sh) -/

/-- A command of the deploy script: an echo statement, the `bun run build`
invocation, or the `bunx wrangler pages deploy <dir> --project-name <p>
--branch <b> --commit-dirty=<c>` invocation. -/
inductive Cmd where
  | echo (msg : String)
  | bunRunBuild
  | wranglerPagesDeploy (dir projectName branchName : String) (commitDirty : Bool)
deriving DecidableEq

/-- Whether a command is an echo statement. -/
def Cmd.isEcho : Cmd → Bool
  | .echo _ => true
  | _ => false

/-- Whether a command is the `bun run build` invocation. -/
def Cmd.isBuild : Cmd → Bool
  | .bunRunBuild => true
  | _ => false

/-- Whether a command is a wrangler deploy invocation. -/
def Cmd.isWrangler : Cmd → Bool
  | .wranglerPagesDeploy _ _ _ _ => true
  | _ => false

/-- The command list of scripts/deploy.sh, in source order: after `set -e`,
three echoes, an echo, `bun run build`, an echo, the wrangler deploy
invocation, and three closing echoes. Comment lines of the script are not
commands. -/
def deployScript : List Cmd :=
  [ .echo "🚀 Deploying Velist Documentation...",
    .echo "Project: velist",
    .echo "",
    .echo "📦 Building...",
    .bunRunBuild,
    .echo "☁️  Deploying to Cloudflare Pages...",
    .wranglerPagesDeploy "docs/.vitepress/dist" "velist" "main" true,
    .echo "",
    .echo "✅ Deploy complete!",
    .echo "🌐 URL: https://velist.pages.dev" ]

/-- The lines of scripts/deploy.sh verbatim, as evidence that the script text
contains no positional-parameter reference and no variable expansion (no
dollar sign at all). -/
def deployScriptLines : List String :=
  [ "#!/bin/bash",
    "# Deploy script untuk velist documentation",
    "# Usage: ./scripts/deploy.sh",
    "",
    "set -e",
    "",
    "echo \"🚀 Deploying Velist Documentation...\"",
    "echo \"Project: velist\"",
    "echo \"\"",
    "",
    "# Build",
    "echo \"📦 Building...\"",
    "bun run build",
    "",
    "# Deploy dengan project name hardcoded",
    "echo \"☁️  Deploying to Cloudflare Pages...\"",
    "bunx wrangler pages deploy docs/.vitepress/dist \\",
    "  --project-name velist \\",
    "  --branch main \\",
    "  --commit-dirty=true",
    "",
    "echo \"\"",
    "echo \"✅ Deploy complete!\"",
    "echo \"🌐 URL: https://velist.pages.dev\"" ]

/-- Exit code of each command in an environment where `bun run build` exits
with `buildExit` and the wrangler deploy exits with `deployExit`; echo always
exits 0. -/
def exitCodeOf (buildExit deployExit : Nat) : Cmd → Nat
  | .echo _ => 0
  | .bunRunBuild => buildExit
  | .wranglerPagesDeploy _ _ _ _ => deployExit

/-- Run a command list under `set -e` semantics: commands run in order; the
first command with a nonzero exit code aborts the script, which then exits
with that code; if every command exits 0 the script exits 0. Returns the
script exit code and the list of commands that were invoked. -/
def runSetE (exitOf : Cmd → Nat) : List Cmd → Nat × List Cmd
  | [] => (0, [])
  | c :: rest =>
    if exitOf c = 0 then
      let r := runSetE exitOf rest
      (r.1, c :: r.2)
    else
      (exitOf c, [c])

/-- A run of the deploy script in an environment where `bun run build` exits
with `b` and the wrangler deploy exits with `d`. -/
def deployRun (b d : Nat) : Nat × List Cmd :=
  runSetE (exitCodeOf b d) deployScript

/-- The deploy script as a function of the command-line arguments and the
environment it is run with. The source of scripts/deploy.sh contains no
positional-parameter reference and no variable expansion (see
`deploy_script_no_dollar`), so the command list is the same for every input. -/
def deployScriptOf (_args : List String) (_env : String → Option String) :
    List Cmd :=
  deployScript

/-- The script text of scripts/deploy.sh contains no dollar sign: it reads no
command-line arguments and no environment variables. -/
theorem deploy_script_no_dollar :
    (deployScriptLines.all fun l => l.toList.all fun ch => ch ≠ '$')
      = true := by
  decide

/-- C1: the deploy script executes `bun run build` (position 4, everything
before it an echo) and only after it the exact command `bunx wrangler pages
deploy docs/.vitepress/dist --project-name velist --branch main
--commit-dirty=true` (position 6), with only an echo between them; each of the
two occurs exactly once, and a fully successful run executes exactly the
script's commands in order. -/
theorem deploy_build_then_wrangler :
    deployScript.get? 4 = some Cmd.bunRunBuild ∧
    deployScript.get? 6 =
      some (Cmd.wranglerPagesDeploy "docs/.vitepress/dist" "velist" "main" true) ∧
    ((deployScript.take 4).all Cmd.isEcho) = true ∧
    (((deployScript.drop 5).take 1).all Cmd.isEcho) = true ∧
    ((deployScript.drop 7).all Cmd.isEcho) = true ∧
    (deployScript.filter Cmd.isBuild).length = 1 ∧
    deployScript.filter Cmd.isWrangler =
      [Cmd.wranglerPagesDeploy "docs/.vitepress/dist" "velist" "main" true] ∧
    (deployRun 0 0).2 = deployScript := by
  decide

/-- C2: under `set -e`, the deploy script aborts at the first failing command
and exits with its code: if `bun run build` fails the wrangler deploy is never
invoked and the script exits with the build's code; if the build succeeds and
the deploy fails the script exits with the deploy's code having invoked
everything up to and including the wrangler command; if both succeed the
script exits 0. -/
theorem deploy_set_e_semantics (b d : Nat) :
    (b ≠ 0 →
      (deployRun b d).1 = b ∧
      (deployRun b d).2.filter Cmd.isWrangler = []) ∧
    (b = 0 → d ≠ 0 →
      (deployRun b d).1 = d ∧
      (deployRun b d).2 = deployScript.take 7) ∧
    (b = 0 → d = 0 → (deployRun b d).1 = 0) := by
  refine ⟨fun hb => ?_, fun hb hd => ?_, fun hb hd => ?_⟩
  · simp [deployRun, deployScript, runSetE, exitCodeOf, hb, Cmd.isWrangler]
  · subst hb
    simp [deployRun, deployScript, runSetE, exitCodeOf, hd]
  · subst hb; subst hd
    simp [deployRun, deployScript, runSetE, exitCodeOf]

/-- Witness for `deploy_set_e_semantics` at the concrete environments
(b, d) = (1, 2), (0, 2) and (0, 0). -/
theorem deploy_set_e_semantics_witness :
    ((deployRun 1 2).1 = 1 ∧ (deployRun 1 2).2.filter Cmd.isWrangler = []) ∧
    ((deployRun 0 2).1 = 2 ∧ (deployRun 0 2).2 = deployScript.take 7) ∧
    (deployRun 0 0).1 = 0 :=
  ⟨(deploy_set_e_semantics 1 2).1 (by decide),
   (deploy_set_e_semantics 0 2).2.1 rfl (by decide),
   (deploy_set_e_semantics 0 0).2.2 rfl rfl⟩

/-- C8: the deployment target is independent of the script's inputs: for any
command-line arguments and any environment the command list is identical, its
only wrangler invocation deploys docs/.vitepress/dist to project `velist` on
branch `main`, and any run whose build step succeeds invokes exactly that
wrangler command. -/
theorem deploy_target_input_independent (args args2 : List String)
    (env env2 : String → Option String) (b d : Nat) :
    deployScriptOf args env = deployScriptOf args2 env2 ∧
    (deployScriptOf args env).filter Cmd.isWrangler =
      [Cmd.wranglerPagesDeploy "docs/.vitepress/dist" "velist" "main" true] ∧
    (b = 0 →
      (runSetE (exitCodeOf b d) (deployScriptOf args env)).2.filter
          Cmd.isWrangler =
        [Cmd.wranglerPagesDeploy "docs/.vitepress/dist" "velist" "main" true]) := by
  refine ⟨rfl, ?_, fun hb => ?_⟩
  · unfold deployScriptOf
    decide
  · subst hb
    unfold deployScriptOf
    by_cases hd : d = 0
    · subst hd
      decide
    · simp [deployScript, runSetE, exitCodeOf, hd, Cmd.isWrangler]

/-- Witness for `deploy_target_input_independent` at concrete inputs. -/
theorem deploy_target_input_independent_witness :
    deployScriptOf [] (fun _ => none) =
      deployScriptOf ["x"] (fun _ => some "y") ∧
    (deployScriptOf [] (fun _ => none)).filter Cmd.isWrangler =
      [Cmd.wranglerPagesDeploy "docs/.vitepress/dist" "velist" "main" true] ∧
    (runSetE (exitCodeOf 0 0) (deployScriptOf [] (fun _ => none))).2.filter
        Cmd.isWrangler =
      [Cmd.wranglerPagesDeploy "docs/.vitepress/dist" "velist" "main" true] :=
  ⟨(deploy_target_input_independent [] ["x"] (fun _ => none)
      (fun _ => some "y") 0 0).1,
   (deploy_target_input_independent [] ["x"] (fun _ => none)
      (fun _ => some "y") 0 0).2.1,
   (deploy_target_input_independent [] ["x"] (fun _ => none)
      (fun _ => some "y") 0 0).2.2 rfl⟩

/-! ## The VitePress site configuration -/

/-- A configuration value of the TypeScript site configuration: a string, a
boolean, a function-valued entry (identified by its body text), a call of a
wrapper such as withMermaid applied to a value, or an array / object encoded
as cons cells (`nilV` ends both). -/
inductive CVal where
  | str (s : String)
  | boolV (b : Bool)
  | fnVal (body : String)
  | callV (callee : String) (arg : CVal)
  | nilV
  | arrCons (hd tl : CVal)
  | objCons (key : String) (val tl : CVal)
deriving DecidableEq

/-- Build an array value from a list. -/
def arrOf : List CVal → CVal
  | [] => .nilV
  | v :: vs => .arrCons v (arrOf vs)

/-- Build an object value from a list of fields. -/
def objOf : List (String × CVal) → CVal
  | [] => .nilV
  | (k, v) :: fs => .objCons k v (objOf fs)

/-- An object of shape text/link, used by nav entries and sidebar items. -/
def textLink (t l : String) : CVal :=
  objOf [("text", .str t), ("link", .str l)]

/-- A sidebar group: a heading and its items, each an object of shape
text/link. -/
def sideGroup (t : String) (items : List (String × String)) : CVal :=
  objOf [("text", .str t),
         ("items", arrOf (items.map fun p => textLink p.1 p.2))]

/-- Field lookup in an object value. -/
def getField : CVal → String → Option CVal
  | .objCons k v tl, key => if k = key then some v else getField tl key
  | _, _ => none

/-- Strip wrapper calls such as withMermaid or defineConfig from around the
configuration object. -/
def unwrapCalls : CVal → CVal
  | .callV _ a => unwrapCalls a
  | v => v

/-- Whether a value contains a function-valued entry anywhere. -/
def containsFn : CVal → Bool
  | .fnVal _ => true
  | .callV _ a => containsFn a
  | .arrCons h t => containsFn h || containsFn t
  | .objCons _ v t => containsFn v || containsFn t
  | _ => false

/-- Whether a value contains a wrapper call anywhere. -/
def containsCall : CVal → Bool
  | .callV _ _ => true
  | .arrCons h t => containsCall h || containsCall t
  | .objCons _ v t => containsCall v || containsCall t
  | _ => false

/-- Whether the top-level value is a wrapper call. -/
def isPluginCall : CVal → Bool
  | .callV _ _ => true
  | _ => false

/-- The string values of all fields named link inside a value. -/
def linksIn : CVal → List String
  | .arrCons h t => linksIn h ++ linksIn t
  | .callV _ a => linksIn a
  | .objCons k v t =>
      (if k = "link" then
        match v with
        | .str s => [s]
        | _ => []
      else []) ++ linksIn v ++ linksIn t
  | _ => []

/-- The themeConfig object of a configuration. -/
def themeConfigOf (c : CVal) : Option CVal :=
  getField (unwrapCalls c) "themeConfig"

/-- The nav array of a configuration. -/
def navOf (c : CVal) : Option CVal :=
  (themeConfigOf c).bind fun t => getField t "nav"

/-- The sidebar object of a configuration. -/
def sidebarOf (c : CVal) : Option CVal :=
  (themeConfigOf c).bind fun t => getField t "sidebar"

/-- The sidebar section of a configuration at a route. -/
def sidebarSection (c : CVal) (route : String) : Option CVal :=
  (sidebarOf c).bind fun s => getField s route

/-- All links declared in the nav and sidebar of a configuration (social
links, which are external URLs, are not nav or sidebar links). -/
def navAndSidebarLinks (c : CVal) : List String :=
  (navOf c).elim [] linksIn ++ (sidebarOf c).elim [] linksIn

/-- The ignoreDeadLinks entry of a configuration. -/
def ignoreDeadLinksOf (c : CVal) : Option CVal :=
  getField (unwrapCalls c) "ignoreDeadLinks"

/-- The object passed to withMermaid in docs/.vitepress/config.ts,
transliterated field by field from the source. -/
def velistConfigObject : CVal :=
  objOf [
    ("title", .str "Velist"),
    ("description", .str "Features-first fullstack framework"),
    ("ignoreDeadLinks", .boolV true),
    ("markdown", objOf [("config", .fnVal "md.use(tabsMarkdownPlugin)")]),
    ("themeConfig", objOf [
      ("nav", arrOf [
        textLink "Guide" "/guide/",
        textLink "Reference" "/reference/",
        textLink "Examples" "/examples/"]),
      ("sidebar", objOf [
        ("/guide/", arrOf [
          sideGroup "Getting Started" [
            ("Introduction", "/guide/"),
            ("Installation", "/guide/installation"),
            ("Quick Start", "/guide/quick-start")],
          sideGroup "AI Development" [
            ("Workflow Overview", "/guide/workflow"),
            ("Agent Reference", "/guide/agents")],
          sideGroup "Core Concepts" [
            ("Vertical Slicing", "/guide/vertical-slicing"),
            ("Project Structure", "/guide/structure")],
          sideGroup "Building Features" [
            ("Creating Features", "/guide/creating-features"),
            ("Complete CRUD Example", "/examples/crud")],
          sideGroup "Fundamentals" [
            ("Routing", "/guide/routing"),
            ("Database", "/guide/database"),
            ("Storage", "/guide/storage"),
            ("Authentication", "/guide/authentication"),
            ("Google OAuth", "/guide/google-auth"),
            ("Forms", "/guide/forms"),
            ("Testing", "/guide/testing")],
          sideGroup "Deployment" [
            ("Production Build", "/guide/production"),
            ("Docker", "/guide/docker")]]),
        ("/reference/", arrOf [
          sideGroup "Reference" [
            ("CLI Commands", "/reference/cli"),
            ("Configuration", "/reference/config"),
            ("TypeScript Types", "/reference/types"),
            ("Brand Guidelines", "/reference/branding")]]),
        ("/examples/", arrOf [
          sideGroup "Examples" [
            ("Overview", "/examples/"),
            ("Complete CRUD", "/examples/crud"),
            ("Authentication", "/examples/auth"),
            ("File Upload", "/examples/file-upload"),
            ("Real-time", "/examples/realtime")]])]),
      ("socialLinks", arrOf [
        objOf [("icon", .str "github"),
               ("link", .str "https://github.com/velist-framework/velist")],
        objOf [("icon", .str "discord"),
               ("link", .str "https://discord.gg/velistdev")]]),
      ("footer", objOf [
        ("message", .str "Released under the MIT License."),
        ("copyright", .str "Copyright © 2026 Velist Framework")]),
      ("search", objOf [("provider", .str "local")])]),
    ("head", arrOf [
      arrOf [.str "link", objOf [("rel", .str "icon"),
                                 ("href", .str "/favicon.ico")]],
      arrOf [.str "meta", objOf [("name", .str "theme-color"),
                                 ("content", .str "#6366F1")]]]),
    ("mermaid", objOf [
      ("theme", .str "dark"),
      ("themeVariables", objOf [
        ("primaryColor", .str "#6366F1"),
        ("primaryTextColor", .str "#fff"),
        ("primaryBorderColor", .str "#4F46E5"),
        ("lineColor", .str "#6366F1"),
        ("secondaryColor", .str "#14B8A6"),
        ("tertiaryColor", .str "#fff")])])]

/-- The default export of docs/.vitepress/config.ts: the configuration object
wrapped in a withMermaid call. -/
def velistConfigExport : CVal :=
  .callV "withMermaid" velistConfigObject

/-- The object passed to defineConfig in the earlier site configuration kept
in the snapshot (src/unnamed/part_010), transliterated field by field from the
source. -/
def velistConfigObjectV0 : CVal :=
  objOf [
    ("title", .str "Velist"),
    ("description", .str "Features-first fullstack framework"),
    ("ignoreDeadLinks", .boolV true),
    ("themeConfig", objOf [
      ("nav", arrOf [
        textLink "Guide" "/guide/",
        textLink "Reference" "/reference/",
        textLink "Examples" "/examples/"]),
      ("sidebar", objOf [
        ("/guide/", arrOf [
          sideGroup "Getting Started" [
            ("Introduction", "/guide/"),
            ("Installation", "/guide/installation"),
            ("Quick Start", "/guide/quick-start")],
          sideGroup "AI Development" [
            ("Workflow Overview", "/guide/workflow"),
            ("Agent Reference", "/guide/agents")],
          sideGroup "Core Concepts" [
            ("Vertical Slicing", "/guide/vertical-slicing"),
            ("Project Structure", "/guide/structure"),
            ("Creating Features", "/guide/creating-features")],
          sideGroup "Fundamentals" [
            ("Routing", "/guide/routing"),
            ("Database", "/guide/database"),
            ("Authentication", "/guide/authentication"),
            ("Forms", "/guide/forms")],
          sideGroup "Deployment" [
            ("Production Build", "/guide/production"),
            ("Docker", "/guide/docker")]]),
        ("/reference/", arrOf [
          sideGroup "Reference" [
            ("CLI Commands", "/reference/cli"),
            ("Configuration", "/reference/config"),
            ("TypeScript Types", "/reference/types"),
            ("Brand Guidelines", "/reference/branding")]]),
        ("/examples/", arrOf [
          sideGroup "Examples" [
            ("Overview", "/examples/"),
            ("Complete CRUD", "/examples/crud")]])]),
      ("socialLinks", arrOf [
        objOf [("icon", .str "github"),
               ("link", .str "https://github.com/velist-framework/velist")],
        objOf [("icon", .str "discord"),
               ("link", .str "https://discord.gg/velistdev")]]),
      ("footer", objOf [
        ("message", .str "Released under the MIT License."),
        ("copyright", .str "Copyright © 2026 Velist Framework")]),
      ("search", objOf [("provider", .str "local")])]),
    ("head", arrOf [
      arrOf [.str "link", objOf [("rel", .str "icon"),
                                 ("href", .str "/favicon.ico")]],
      arrOf [.str "meta", objOf [("name", .str "theme-color"),
                                 ("content", .str "#6366F1")]]])]

/-- The default export of the earlier configuration: the object wrapped in a
defineConfig call. -/
def velistConfigExportV0 : CVal :=
  .callV "defineConfig" velistConfigObjectV0

/-! ## Theorems about the site configuration -/

/-- C4 counterexample: the default export of docs/.vitepress/config.ts is not
a purely declarative object — it is a wrapper plugin call (withMermaid) and it
contains a function-valued configuration entry (markdown.config). -/
theorem config_export_not_purely_declarative :
    isPluginCall velistConfigExport = true ∧
    containsFn velistConfigExport = true ∧
    getField velistConfigObject "markdown" =
      some (objOf [("config", .fnVal "md.use(tabsMarkdownPlugin)")]) := by
  decide

/-- C4 amended: the default export is the navigation/sidebar/theme
configuration object wrapped in a single withMermaid plugin call; the only
function-valued entry is markdown.config (registering the tabs markdown
plugin), and the themeConfig, head and mermaid sections are fully declarative
(no function values, no wrapper calls). -/
theorem config_declarative_up_to_wrapper_and_markdown :
    velistConfigExport = CVal.callV "withMermaid" velistConfigObject ∧
    getField velistConfigObject "markdown" =
      some (objOf [("config", .fnVal "md.use(tabsMarkdownPlugin)")]) ∧
    (themeConfigOf velistConfigExport).elim false
      (fun t => !containsFn t && !containsCall t) = true ∧
    (getField velistConfigObject "head").elim false
      (fun h => !containsFn h && !containsCall h) = true ∧
    (getField velistConfigObject "mermaid").elim false
      (fun m => !containsFn m && !containsCall m) = true := by
  decide

/-- Modelled from the spec: VitePress's dead-link check (VitePress itself is
an external dependency whose code is not part of this repository). The build
succeeds when the configuration sets ignoreDeadLinks to true, and otherwise
only when there are no dead links. -/
def buildSucceeds (cfg : CVal) (deadLinks : List String) : Bool :=
  match ignoreDeadLinksOf cfg with
  | some (.boolV true) => true
  | _ => deadLinks.isEmpty

/-- C7: the site configuration sets ignoreDeadLinks to true, so the VitePress
build succeeds for every set of dead links; a dead link never causes a build
failure under this configuration. -/
theorem ignore_dead_links_build_succeeds (deadLinks : List String) :
    ignoreDeadLinksOf velistConfigExport = some (CVal.boolV true) ∧
    buildSucceeds velistConfigExport deadLinks = true :=
  ⟨rfl, rfl⟩

/-- C9 counterexample: the two site configurations in the snapshot do not
define the same sidebar trees — both the /guide/ and the /examples/ sections
differ between docs/.vitepress/config.ts and the earlier configuration. -/
theorem config_sidebars_differ :
    sidebarSection velistConfigExport "/guide/" ≠
      sidebarSection velistConfigExportV0 "/guide/" ∧
    sidebarSection velistConfigExport "/examples/" ≠
      sidebarSection velistConfigExportV0 "/examples/" := by
  decide

/-- C9 amended: the two configurations define the same nav entries and the
same /reference/ sidebar section, and every sidebar link of the earlier
configuration also appears in docs/.vitepress/config.ts; but the /guide/ and
/examples/ sections differ, docs/.vitepress/config.ts adding the links
/guide/storage, /guide/google-auth, /guide/testing, /examples/auth,
/examples/file-upload and /examples/realtime that the earlier configuration
lacks. -/
theorem config_nav_agrees_sidebars_extended :
    navOf velistConfigExport = navOf velistConfigExportV0 ∧
    sidebarSection velistConfigExport "/reference/" =
      sidebarSection velistConfigExportV0 "/reference/" ∧
    ((navAndSidebarLinks velistConfigExportV0).all fun l =>
      (navAndSidebarLinks velistConfigExport).contains l) = true ∧
    sidebarSection velistConfigExport "/guide/" ≠
      sidebarSection velistConfigExportV0 "/guide/" ∧
    sidebarSection velistConfigExport "/examples/" ≠
      sidebarSection velistConfigExportV0 "/examples/" ∧
    (["/guide/storage", "/guide/google-auth", "/guide/testing",
      "/examples/auth", "/examples/file-upload", "/examples/realtime"].all
        fun l =>
      (navAndSidebarLinks velistConfigExport).contains l &&
      !(navAndSidebarLinks velistConfigExportV0).contains l) = true := by
  decide

/-! ## The markdown pages of the site -/

/-- The routes of the markdown pages present under docs/ with known file
names in the source snapshot: docs/index.md, the thirteen guide pages, the
two reference pages and the examples index. -/
def namedPageRoutes : List String :=
  ["/", "/guide/", "/guide/installation", "/guide/quick-start",
   "/guide/vertical-slicing", "/guide/structure", "/guide/creating-features",
   "/guide/routing", "/guide/database", "/guide/authentication",
   "/guide/backup", "/guide/shared-utilities", "/guide/testing",
   "/guide/docker", "/reference/config", "/reference/types", "/examples/"]

/-- Modelled from the spec: the source snapshot also contains repository
markdown documents whose file names are not recorded; each is assigned the
route its own title identifies (AI-First Development Workflow →
/guide/workflow, Production Build → /guide/production, File Storage →
/guide/storage, Brand Guidelines → /reference/branding, CLI Commands →
/reference/cli, Complete CRUD Example → /examples/crud, File Upload Example →
/examples/file-upload, Real-time Notifications → /examples/realtime). No
document in the snapshot corresponds to /reference/ (a reference index),
/guide/agents, /guide/google-auth, /guide/forms or /examples/auth. -/
def recoveredPageRoutes : List String :=
  ["/guide/workflow", "/guide/production", "/guide/storage",
   "/reference/branding", "/reference/cli", "/examples/crud",
   "/examples/file-upload", "/examples/realtime"]

/-- All markdown page routes of the site in the snapshot's file tree. -/
def docsPageRoutes : List String := namedPageRoutes ++ recoveredPageRoutes

/-- The nav and sidebar links of docs/.vitepress/config.ts that resolve to no
markdown page of the site. -/
def deadConfigLinks : List String :=
  (navAndSidebarLinks velistConfigExport).filter fun l =>
    !docsPageRoutes.contains l

/-- C3 counterexample: the sidebar of docs/.vitepress/config.ts declares the
link /guide/agents (the Agent Reference entry), but no markdown page of the
site has that route, so not every declared link resolves to an existing
page. -/
theorem sidebar_link_agents_dead :
    (navAndSidebarLinks velistConfigExport).contains "/guide/agents" = true ∧
    docsPageRoutes.contains "/guide/agents" = false := by
  decide

/-- C3 amended: every nav and sidebar link of docs/.vitepress/config.ts
resolves to an existing markdown page of the site except exactly /reference/
(the nav entry, lacking a reference index page), /guide/agents,
/guide/google-auth, /guide/forms and /examples/auth; the build nevertheless
succeeds because ignoreDeadLinks is set. -/
theorem dead_links_exactly :
    deadConfigLinks =
      ["/reference/", "/guide/agents", "/guide/google-auth", "/guide/forms",
       "/examples/auth"] ∧
    buildSucceeds velistConfigExport deadConfigLinks = true := by
  decide

/-! ## The repository file manifest -/

/-- The kind of a repository file. The last four kinds never occur in this
repository; they are listed so that their absence is a statement about the
manifest rather than about the type. -/
inductive FileKind where
  | markdownDoc
  | siteConfig
  | deployShellScript
  | backendExecutable
  | dataStructureImpl
  | protocolImpl
  | algorithmicCore
deriving DecidableEq

/-- Whether a file kind is one of the three kinds the repository is claimed
to consist of. -/
def FileKind.isDocSiteKind : FileKind → Bool
  | .markdownDoc => true
  | .siteConfig => true
  | .deployShellScript => true
  | _ => false

/-- The files of the source snapshot with their kinds: the named files of the
repository tree, the deploy script, and the twelve repository files whose
names are not recorded (ten markdown documents, one earlier site
configuration, one earlier readme). -/
def srcManifest : List (String × FileKind) :=
  [("README.md", .markdownDoc),
   ("docs/.vitepress/config.ts", .siteConfig),
   ("scripts/deploy.sh", .deployShellScript),
   ("docs/index.md", .markdownDoc),
   ("docs/guide/index.md", .markdownDoc),
   ("docs/guide/installation.md", .markdownDoc),
   ("docs/guide/quick-start.md", .markdownDoc),
   ("docs/guide/vertical-slicing.md", .markdownDoc),
   ("docs/guide/structure.md", .markdownDoc),
   ("docs/guide/creating-features.md", .markdownDoc),
   ("docs/guide/routing.md", .markdownDoc),
   ("docs/guide/database.md", .markdownDoc),
   ("docs/guide/authentication.md", .markdownDoc),
   ("docs/guide/backup.md", .markdownDoc),
   ("docs/guide/shared-utilities.md", .markdownDoc),
   ("docs/guide/testing.md", .markdownDoc),
   ("docs/guide/docker.md", .markdownDoc),
   ("docs/reference/config.md", .markdownDoc),
   ("docs/reference/types.md", .markdownDoc),
   ("docs/examples/index.md", .markdownDoc),
   ("unnamed-part-000", .markdownDoc),
   ("unnamed-part-001", .markdownDoc),
   ("unnamed-part-002", .markdownDoc),
   ("unnamed-part-003", .markdownDoc),
   ("unnamed-part-004", .markdownDoc),
   ("unnamed-part-005", .markdownDoc),
   ("unnamed-part-006", .markdownDoc),
   ("unnamed-part-007", .markdownDoc),
   ("unnamed-part-008", .markdownDoc),
   ("unnamed-part-009", .markdownDoc),
   ("unnamed-part-010", .siteConfig),
   ("unnamed-part-011", .markdownDoc)]

/-- C5: every file of the repository snapshot is a markdown document, a
static-site configuration or the deployment shell script; none is a backend
executable, a data structure implementation, a protocol implementation or an
algorithmic core. -/
theorem repo_files_only_docs_config_script :
    (srcManifest.all fun f => f.2.isDocSiteKind) = true ∧
    (srcManifest.filter fun f =>
      f.2 = FileKind.backendExecutable ||
      f.2 = FileKind.dataStructureImpl ||
      f.2 = FileKind.protocolImpl ||
      f.2 = FileKind.algorithmicCore) = [] := by
  decide

/-! ## The package scripts -/

/-- Modelled from the spec: the package.json of the repository is not part of
the source snapshot; its scripts section is modelled from the CLI surface the
specification and the readme describe — dev, build and preview invoke the
corresponding VitePress CLI command on docs, and deploy invokes the Wrangler
deploy script. -/
def packageScripts : List (String × String) :=
  [("dev", "vitepress dev docs"),
   ("build", "vitepress build docs"),
   ("preview", "vitepress preview docs"),
   ("deploy", "./scripts/deploy.sh")]

/-- Look up a package script by name. -/
def lookupScript (scriptName : String) : Option String :=
  (packageScripts.find? fun p => p.1 = scriptName).map fun p => p.2

/-- A command string is a single invocation when it contains no shell
sequencing or piping operator. -/
def isSingleInvocation (cmd : String) : Bool :=
  cmd.toList.all fun ch => ch ≠ ';' && ch ≠ '&' && ch ≠ '|'

/-- C6: each of the four commands bun run dev, build, preview and deploy is
defined and is a thin wrapper: it maps to exactly one invocation, of the
VitePress CLI for dev, build and preview and of the Wrangler deploy script
for deploy. -/
theorem cli_commands_thin_wrappers :
    lookupScript "dev" = some "vitepress dev docs" ∧
    lookupScript "build" = some "vitepress build docs" ∧
    lookupScript "preview" = some "vitepress preview docs" ∧
    lookupScript "deploy" = some "./scripts/deploy.sh" ∧
    ((["dev", "build", "preview", "deploy"].all fun n =>
      (lookupScript n).elim false isSingleInvocation)) = true := by
  decide
